import Mathlib

/-!
Shallow embedding of the youtube-downloader repository's core logic
(`src/api.py`): the progress projector `YouTubeDownloader._progress_hook`
together with its `DownloadProgress` record, the `DownloadFormat` catalog
and the post-processing selection of `download_video`, and the
post-extraction projection logic of `get_video_info` / `get_playlist_info`.

Python dictionary values that flow through this code are modelled by the
`Value` type (`None`, integers, strings); optional dictionary keys by
`Option Value`.  Numeric results of Python's true division are modelled
exactly as rationals.  Exceptions are modelled by the `PyError` type.
-/

/-- Model of a Python value as it appears in the yt-dlp event dictionaries:
`None`, an integer, or a string. -/
inductive Value where
  | pyNone : Value
  | int : Int → Value
  | str : String → Value
deriving DecidableEq, Repr

/-- Python truthiness of a `Value`: `None` is falsy, a number is truthy iff
nonzero, a string is truthy iff nonempty. -/
def truthy : Value → Bool
  | .pyNone => false
  | .int n => n != 0
  | .str s => s != ""

/-- Truthiness of `key in d and d[key]`: an absent key is falsy, a present
key has the truthiness of its value. -/
def truthyOpt : Option Value → Bool
  | Option.none => false
  | some v => truthy v

/-- Model of Python `str()` on a `Value`: a string is returned unchanged,
`None` prints as `"None"`, an integer prints in decimal. -/
def pyStr : Value → String
  | .pyNone => "None"
  | .int n => toString n
  | .str s => s

/-- Exceptions that the modelled code can raise. -/
inductive PyError where
  | keyError
  | attributeError
  | typeError
  | zeroDivisionError
deriving DecidableEq, Repr

/-- Model of Python's true division `a / b` on `Value`s: defined on two
integers (raising `ZeroDivisionError` when the divisor is zero), and a
`TypeError` on any non-numeric operand. -/
def pyDiv : Value → Value → Except PyError ℚ
  | .int a, .int b => if b = 0 then .error .zeroDivisionError else .ok ((a : ℚ) / (b : ℚ))
  | _, _ => .error .typeError

/-- Model of Python's `str.strip()` with no argument: remove leading and
trailing whitespace characters. -/
def pyStrip (s : String) : String :=
  String.mk (((s.toList.dropWhile (fun c => c.isWhitespace)).reverse.dropWhile
    (fun c => c.isWhitespace)).reverse)

/-- Digits of a numeral read into a natural number. -/
def digitsToNat (cs : List Char) : Nat :=
  cs.foldl (fun a c => a * 10 + (c.toNat - 48)) 0

/-- Model of Python's `float()` applied to a string, restricted to plain
decimal numerals: optional surrounding whitespace, an optional sign, then
digits with an optional fractional part (`"53.2"`, `"-7"`, `"1."`, `".5"`).
Exotic accepted forms (exponents, `inf`, `nan`, underscores) are not
modelled; `Option.none` models the `ValueError` raised on any other
input. -/
def pyFloat (s : String) : Option ℚ :=
  let t := (pyStrip s).toList
  let signed : Int × List Char :=
    match t with
    | '+' :: r => (1, r)
    | '-' :: r => (-1, r)
    | r => (1, r)
  let sign := signed.1
  let body := signed.2
  let intPart := body.takeWhile (fun c => c.isDigit)
  let rest := body.drop intPart.length
  match rest with
  | [] =>
      if intPart.isEmpty then Option.none
      else some ((sign : ℚ) * (digitsToNat intPart : ℚ))
  | '.' :: frac =>
      if frac.all (fun c => c.isDigit) && !(intPart.isEmpty && frac.isEmpty) then
        some ((sign : ℚ) *
          ((digitsToNat intPart : ℚ) + (digitsToNat frac : ℚ) / ((10 : ℚ) ^ frac.length)))
      else Option.none
  | _ => Option.none

/-- Model of Python's `rstrip('%')`: remove every trailing `%` character. -/
def rstripPercent (s : String) : String :=
  String.mk ((s.toList.reverse.dropWhile (fun c => c = '%')).reverse)

/-- Model of a yt-dlp progress-hook event dictionary `d`: each field is an
optional entry of the dictionary (`percent_str`, `speed_str`, `eta_str`
stand for the keys `_percent_str`, `_speed_str`, `_eta_str`). -/
structure Event where
  status : Option Value := Option.none
  downloaded_bytes : Option Value := Option.none
  total_bytes : Option Value := Option.none
  percent_str : Option Value := Option.none
  speed_str : Option Value := Option.none
  eta_str : Option Value := Option.none
  filename : Option Value := Option.none
  error : Option Value := Option.none
deriving DecidableEq, Repr

/-- Embedding of the `DownloadProgress` dataclass of `src/api.py`.  The
`status` field carries the raw status value taken from the event; the
optional fields default to `None` exactly as in the dataclass. -/
structure DownloadProgress where
  status : Value
  percentage : ℚ
  speed : Option Value := Option.none
  eta : Option Value := Option.none
  filename : Option Value := Option.none
  error_message : Option String := Option.none
deriving DecidableEq, Repr

/-- Outcome of one call to `_progress_hook`: the hook returns without doing
anything when no callback is registered, raises an exception, or invokes
the registered callback exactly once with the constructed progress
record. -/
inductive HookResult where
  | noCallback
  | raised : PyError → HookResult
  | emitted : DownloadProgress → HookResult
deriving DecidableEq, Repr

/-- Model of Python `v == "lit"` for a dictionary value against a string
literal: true exactly when `v` is that string (comparison of a non-string
with a string is `False`, not an error). -/
def valueEqStr (v : Value) (lit : String) : Bool :=
  match v with
  | .str s => s == lit
  | _ => false

/-- Embedding of `YouTubeDownloader._progress_hook` (src/api.py lines
64-96).  `hasCallback` models whether `self.progress_callback` is set.
Dictionary subscripting `d['status']` and `d['downloaded_bytes']` raises
`KeyError` on an absent key; `d['_percent_str'].strip()` raises
`AttributeError` on a non-string value (that call sits before the `try`
of the code, so it is not caught); `d.get(k, None)` is the corresponding
`Option` field unchanged. -/
def progressHook (hasCallback : Bool) (d : Event) : HookResult :=
  if hasCallback = false then .noCallback
  else
    match d.status with
    | Option.none => .raised .keyError
    | some st =>
      if valueEqStr st "downloading" then
        let percentBranch : HookResult :=
          match d.percent_str with
          | some (.str s) =>
              .emitted { status := st
                       , percentage := (pyFloat (rstripPercent (pyStrip s))).getD 0
                       , speed := d.speed_str, eta := d.eta_str
                       , filename := d.filename }
          | some _ => .raised .attributeError
          | Option.none =>
              .emitted { status := st, percentage := 0
                       , speed := d.speed_str, eta := d.eta_str
                       , filename := d.filename }
        match d.total_bytes with
        | some tb =>
            if truthy tb then
              match d.downloaded_bytes with
              | Option.none => .raised .keyError
              | some db =>
                  match pyDiv db tb with
                  | .error e => .raised e
                  | .ok q =>
                      .emitted { status := st, percentage := q * 100
                               , speed := d.speed_str, eta := d.eta_str
                               , filename := d.filename }
            else percentBranch
        | Option.none => percentBranch
      else if valueEqStr st "finished" then
        .emitted { status := st, percentage := 100, filename := d.filename }
      else if valueEqStr st "error" then
        .emitted { status := st, percentage := 0
                 , error_message := some (pyStr (d.error.getD (.str "Unknown error"))) }
      else
        .emitted { status := st, percentage := 0 }

/-- Percentage carried by a hook outcome (`0` when nothing was emitted). -/
def pctOf : HookResult → ℚ
  | .emitted p => p.percentage
  | _ => 0

/-- Whether a hook outcome is a raised exception. -/
def HookResult.isRaised : HookResult → Bool
  | .raised _ => true
  | _ => false

/-- In the downloading branch, the fallback path is safe when a present
`_percent_str` value is a string (on a non-string value, `.strip()` raises
`AttributeError` outside the code's `try`). -/
def percentOk (d : Event) : Bool :=
  match d.percent_str with
  | some (.str _) => true
  | some _ => false
  | Option.none => true

/-- Events on which `_progress_hook` completes without raising: the
`status` key is present, and in the downloading branch the byte-count pair
is a pair of integers whenever `total_bytes` is present and truthy, with a
string `_percent_str` (if any) otherwise. -/
def safeEvent (d : Event) : Bool :=
  match d.status with
  | Option.none => false
  | some st =>
    if valueEqStr st "downloading" then
      match d.total_bytes with
      | some tb =>
          if truthy tb then
            match d.downloaded_bytes, tb with
            | some (.int _), .int _ => true
            | _, _ => false
          else percentOk d
      | Option.none => percentOk d
    else true

/-- In the downloading branch, the fallback percentage lies in range when
the parsed `_percent_str` value does (a failed parse yields `0.0`; a
non-string value raises, so nothing is emitted). -/
def percentInRange (d : Event) : Bool :=
  match d.percent_str with
  | some (.str s) =>
      match pyFloat (rstripPercent (pyStrip s)) with
      | some q => decide (0 ≤ q) && decide (q ≤ 100)
      | Option.none => true
  | _ => true

/-- Events whose projected percentage stays in `[0, 100]`: in the
byte-count branch the counts satisfy `0 ≤ downloaded_bytes ≤ total_bytes`,
and in the fallback branch the parsed percentage (if any) lies in range.
All other statuses yield `0.0` or `100.0` by construction. -/
def inRangeEvent (d : Event) : Bool :=
  match d.status with
  | Option.none => true
  | some st =>
    if valueEqStr st "downloading" then
      match d.total_bytes with
      | some tb =>
          if truthy tb then
            match d.downloaded_bytes, tb with
            | some (.int a), .int b => decide (0 ≤ a) && decide (a ≤ b)
            | _, _ => true
          else percentInRange d
      | Option.none => percentInRange d
    else true

/-- Embedding of the `DownloadFormat` enumeration of `src/api.py`. -/
inductive DownloadFormat where
  | MP4_BEST
  | MP4_720P
  | MP4_480P
  | MP3_BEST
  | AUDIO_ONLY
deriving DecidableEq, Repr

/-- Enumeration value (the yt-dlp format-selector string) of each member,
exactly as written in `src/api.py`. -/
def DownloadFormat.value : DownloadFormat → String
  | .MP4_BEST => "best[ext=mp4]"
  | .MP4_720P => "best[height<=720][ext=mp4]"
  | .MP4_480P => "best[height<=480][ext=mp4]"
  | .MP3_BEST => "bestaudio[ext=m4a]/bestaudio/best"
  | .AUDIO_ONLY => "bestaudio/best"

/-- Embedding of the test `format_choice in [DownloadFormat.MP3_BEST,
DownloadFormat.AUDIO_ONLY]` of `download_video` (src/api.py line 228),
which decides whether the audio-extraction post-processor is attached. -/
def needsAudioExtraction (f : DownloadFormat) : Bool :=
  f = DownloadFormat.MP3_BEST || f = DownloadFormat.AUDIO_ONLY

/-- One yt-dlp post-processor directive, as the dictionary built in
`download_video` (src/api.py lines 229-233). -/
structure Postprocessor where
  key : String
  preferredcodec : String
  preferredquality : String
deriving DecidableEq, Repr

/-- Post-processor list that `download_video` puts into `ydl_opts` for a
given format choice (src/api.py lines 227-233): audio formats get the
FFmpeg audio extraction to mp3 at quality `"192"`, others get none. -/
def downloadPostprocessors (f : DownloadFormat) : List Postprocessor :=
  if needsAudioExtraction f then
    [{ key := "FFmpegExtractAudio", preferredcodec := "mp3", preferredquality := "192" }]
  else []

/-- Checks whether `needle` is a prefix of `hay` (character lists). -/
def isPrefixList : List Char → List Char → Bool
  | [], _ => true
  | _ :: _, [] => false
  | a :: as, b :: bs => a = b && isPrefixList as bs

/-- Checks whether `needle` occurs as a contiguous substring of `hay`. -/
def containsSub (needle : List Char) : List Char → Bool
  | [] => isPrefixList needle []
  | c :: t => isPrefixList needle (c :: t) || containsSub needle t

/-- String form of the substring test. -/
def strContainsSub (hay needle : String) : Bool :=
  containsSub needle.toList hay.toList

/-- One entry of the `formats` list of an extraction result, with the keys
that `get_video_info` projects (each optional, as `f.get` tolerates
absence). -/
structure FormatInfo where
  format_id : Option Value := Option.none
  ext : Option Value := Option.none
  quality : Option Value := Option.none
  filesize : Option Value := Option.none
  format_note : Option Value := Option.none
deriving DecidableEq, Repr

/-- Format descriptor dictionary built by `get_video_info` from one entry
of the engine's `formats` list (src/api.py lines 136-145). -/
structure FormatDesc where
  format_id : Value
  ext : Value
  quality : Value
  filesize : Value
  format_note : Value
deriving DecidableEq, Repr

/-- Scalar fields of one extraction-result dictionary (a video entry), each
optional since the code reads them with `.get` defaults. -/
structure BaseInfo where
  id : Option Value := Option.none
  title : Option Value := Option.none
  description : Option Value := Option.none
  duration : Option Value := Option.none
  uploader : Option Value := Option.none
  upload_date : Option Value := Option.none
  view_count : Option Value := Option.none
  thumbnail : Option Value := Option.none
  formats : Option (List FormatInfo) := Option.none
deriving DecidableEq, Repr

/-- Model of the dictionary returned by the engine's `extract_info`: the
scalar fields plus an optional `entries` list (present exactly for
playlist/channel results); a `Option.none` element of `entries` models a
`None` entry, which is falsy. -/
structure ExtractedInfo extends BaseInfo where
  entries : Option (List (Option BaseInfo)) := Option.none
deriving DecidableEq, Repr

/-- Embedding of the `VideoInfo` dataclass of `src/api.py`. -/
structure VideoInfo where
  id : Value
  title : Value
  description : Value
  duration : Value
  uploader : Value
  upload_date : Value
  view_count : Value
  thumbnail : Value
  formats : List FormatDesc
  url : String
deriving DecidableEq, Repr

/-- Projection of one extraction result into a `VideoInfo`, with the `.get`
defaults of `get_video_info` (src/api.py lines 127-147). -/
def mkVideoInfo (url : String) (info : BaseInfo) : VideoInfo :=
  { id := info.id.getD (.str "")
  , title := info.title.getD (.str "Unknown Title")
  , description := info.description.getD (.str "")
  , duration := info.duration.getD (.int 0)
  , uploader := info.uploader.getD (.str "Unknown")
  , upload_date := info.upload_date.getD (.str "")
  , view_count := info.view_count.getD (.int 0)
  , thumbnail := info.thumbnail.getD (.str "")
  , formats := (info.formats.getD []).map (fun f =>
      { format_id := f.format_id.getD (.str "")
      , ext := f.ext.getD (.str "")
      , quality := f.quality.getD (.str "")
      , filesize := f.filesize.getD (.int 0)
      , format_note := f.format_note.getD (.str "") })
  , url := url }

/-- Embedding of the post-extraction logic of `get_video_info` (src/api.py
lines 116-150), taking the engine's extraction result as input: when
`entries` is present, a truthy (nonempty) list replaces the info with its
first element and an empty one raises
`Exception("No videos found in playlist/channel")`; a `None` first entry
makes the subsequent `.get` calls raise `AttributeError`.  Every failure is
re-raised wrapped in `"Failed to extract video info: "`. -/
def get_video_info (url : String) (info : ExtractedInfo) : Except String VideoInfo :=
  let inner : Except String VideoInfo :=
    match info.entries with
    | some es =>
        match es with
        | [] => .error "No videos found in playlist/channel"
        | e :: _ =>
            match e with
            | some b => .ok (mkVideoInfo url b)
            | Option.none => .error "'NoneType' object has no attribute 'get'"
    | Option.none => .ok (mkVideoInfo url info.toBaseInfo)
  match inner with
  | .ok v => .ok v
  | .error m => .error ("Failed to extract video info: " ++ m)

/-- Projection of one flat playlist entry into a `VideoInfo`, as built in
the loop of `get_playlist_info` (src/api.py lines 180-191). -/
def mkPlaylistVideoInfo (b : BaseInfo) : VideoInfo :=
  { id := b.id.getD (.str "")
  , title := b.title.getD (.str "Unknown Title")
  , description := .str ""
  , duration := b.duration.getD (.int 0)
  , uploader := b.uploader.getD (.str "Unknown")
  , upload_date := .str ""
  , view_count := .int 0
  , thumbnail := b.thumbnail.getD (.str "")
  , formats := []
  , url := "https://www.youtube.com/watch?v=" ++ pyStr (b.id.getD (.str "")) }

/-- Embedding of the post-extraction logic of `get_playlist_info`
(src/api.py lines 168-197), taking the engine's (flat) extraction result as
input.  Without an `entries` key the code falls back to
`[self.get_video_info(url)]`; the nested fresh extraction performed by that
call is modelled as returning the same extraction result.  With an
`entries` key, falsy (`None`) entries are skipped and the collected list is
returned as is — in particular an empty `entries` list yields `[]` with no
error. -/
def get_playlist_info (url : String) (info : ExtractedInfo) :
    Except String (List VideoInfo) :=
  match info.entries with
  | Option.none =>
      match get_video_info url info with
      | .ok v => .ok [v]
      | .error m => .error ("Failed to extract playlist info: " ++ m)
  | some es => .ok (es.filterMap (fun e => e.map mkPlaylistVideoInfo))

/-- C9: the format catalog resolves the 720p MP4 preset to a selector string
containing both an mp4 extension filter and a height bound of 720 with no
audio extraction, and resolves the MP3 audio-only preset with audio
extraction enabled, requesting an MP3 container at the fixed target
bitrate of 192 kbps. -/
theorem format_catalog_720p_and_mp3 :
    strContainsSub DownloadFormat.MP4_720P.value "ext=mp4" = true ∧
    strContainsSub DownloadFormat.MP4_720P.value "height<=720" = true ∧
    needsAudioExtraction DownloadFormat.MP4_720P = false ∧
    needsAudioExtraction DownloadFormat.MP3_BEST = true ∧
    downloadPostprocessors DownloadFormat.MP3_BEST =
      [{ key := "FFmpegExtractAudio", preferredcodec := "mp3", preferredquality := "192" }] :=
  ⟨by decide, by decide, by decide, by decide, rfl⟩

/-- C6: for every event with status `"finished"`, the projected state has
percentage exactly `100.0` regardless of any other fields present, and the
filename field is copied from the event when present. -/
theorem progress_hook_finished (d : Event) (h : d.status = some (.str "finished")) :
    progressHook true d =
      .emitted { status := .str "finished", percentage := 100, filename := d.filename } := by
  unfold progressHook
  rw [h]
  simp [valueEqStr]

/-- Witness for C6 at a concrete finished event carrying extra fields. -/
theorem progress_hook_finished_witness :
    progressHook true
        { status := some (.str "finished"), filename := some (.str "video.mp4"),
          downloaded_bytes := some (.int 7) } =
      .emitted
        { status := .str "finished", percentage := 100,
          filename := some (.str "video.mp4") } :=
  progress_hook_finished _ rfl

/-- C7: for every event with status `"error"`, the projected state's error
message is the stringified value of the event's `error` field when present,
and the fixed placeholder `"Unknown error"` when it is absent. -/
theorem progress_hook_error (d : Event) (h : d.status = some (.str "error")) :
    progressHook true d =
      .emitted
        { status := .str "error", percentage := 0,
          error_message := some (match d.error with
            | some v => pyStr v
            | Option.none => "Unknown error") } := by
  unfold progressHook
  rw [h]
  cases he : d.error <;> simp [valueEqStr, he, pyStr]

/-- Witness for C7 at a concrete error event with the `error` field absent. -/
theorem progress_hook_error_witness :
    progressHook true { status := some (.str "error") } =
      .emitted
        { status := .str "error", percentage := 0,
          error_message := some "Unknown error" } :=
  progress_hook_error _ rfl

/-- C8: for every event whose status is none of `"downloading"`,
`"finished"` or `"error"`, a progress state carrying that status with
percentage `0.0` and all optional fields empty is emitted to the observer
(unknown statuses are not filtered), and without a registered observer the
event is a no-op. -/
theorem progress_hook_unknown_status (d : Event) (st : Value)
    (h : d.status = some st)
    (h1 : valueEqStr st "downloading" = false)
    (h2 : valueEqStr st "finished" = false)
    (h3 : valueEqStr st "error" = false) :
    progressHook true d = .emitted { status := st, percentage := 0 } ∧
    progressHook false d = .noCallback := by
  constructor
  · unfold progressHook
    rw [h]
    simp [h1, h2, h3]
  · rfl

/-- Witness for C8 at a concrete event with status `"postprocessing"`. -/
theorem progress_hook_unknown_status_witness :
    progressHook true
        { status := some (.str "postprocessing"), filename := some (.str "x.mp4") } =
      .emitted { status := .str "postprocessing", percentage := 0 } ∧
    progressHook false
        { status := some (.str "postprocessing"), filename := some (.str "x.mp4") } =
      .noCallback :=
  progress_hook_unknown_status _ _ rfl (by decide) (by decide) (by decide)

/-- C2: for every downloading event in which both `downloaded_bytes` and
`total_bytes` are present with `total_bytes > 0`, the projected percentage
equals `downloaded_bytes / total_bytes * 100` and the speed, eta and
filename fields are copied through from the event. -/
theorem progress_hook_downloading_bytes (d : Event) (a b : Int)
    (h : d.status = some (.str "downloading"))
    (hd : d.downloaded_bytes = some (.int a))
    (ht : d.total_bytes = some (.int b))
    (hb : 0 < b) :
    progressHook true d =
      .emitted
        { status := .str "downloading", percentage := (a : ℚ) / (b : ℚ) * 100,
          speed := d.speed_str, eta := d.eta_str, filename := d.filename } := by
  unfold progressHook
  rw [h, ht, hd]
  have hb' : b ≠ 0 := by omega
  simp [valueEqStr, truthy, pyDiv, hb']

/-- Witness for C2 at a concrete downloading event with 1 of 4 bytes. -/
theorem progress_hook_downloading_bytes_witness :
    progressHook true
        { status := some (.str "downloading"), downloaded_bytes := some (.int 1),
          total_bytes := some (.int 4), speed_str := some (.str "2MiB/s"),
          eta_str := some (.str "00:42"), filename := some (.str "clip.mp4") } =
      .emitted
        { status := .str "downloading",
          percentage := ((1 : Int) : ℚ) / ((4 : Int) : ℚ) * 100,
          speed := some (.str "2MiB/s"), eta := some (.str "00:42"),
          filename := some (.str "clip.mp4") } :=
  progress_hook_downloading_bytes _ 1 4 rfl rfl rfl (by norm_num)

/-- Counterexample to C5: a playlist extraction resolving to zero entries
makes `get_playlist_info` return the empty list silently, with no
`EmptyPlaylist` error. -/
theorem get_playlist_info_empty_silent :
    get_playlist_info "https://www.youtube.com/playlist?list=PLempty"
      { entries := some [] } = Except.ok [] := rfl

/-- C5 (amended): when extraction resolves to zero entries,
`get_video_info` fails with the wrapped empty-playlist error; the claim's
universal form fails because `get_playlist_info` instead returns the empty
list silently. -/
theorem get_video_info_empty_playlist (url : String) (info : ExtractedInfo)
    (h : info.entries = some []) :
    get_video_info url info =
      .error "Failed to extract video info: No videos found in playlist/channel" := by
  unfold get_video_info
  rw [h]
  rfl

/-- Witness for C5 (amended) at a concrete zero-entry extraction result. -/
theorem get_video_info_empty_playlist_witness :
    get_video_info "https://www.youtube.com/playlist?list=PLempty" { entries := some [] } =
      .error "Failed to extract video info: No videos found in playlist/channel" :=
  get_video_info_empty_playlist _ _ rfl

/-- C3: for every downloading event with no usable byte counts but a
string `_percent_str` field, the projected percentage is obtained by
stripping the trailing `%` and parsing the remainder as a float, defaulting
to `0.0` on parse failure with no exception raised. -/
theorem progress_hook_percent_fallback (d : Event) (s : String)
    (h : d.status = some (.str "downloading"))
    (ht : truthyOpt d.total_bytes = false)
    (hp : d.percent_str = some (.str s)) :
    progressHook true d =
      .emitted
        { status := .str "downloading",
          percentage := (pyFloat (rstripPercent (pyStrip s))).getD 0,
          speed := d.speed_str, eta := d.eta_str, filename := d.filename } := by
  unfold progressHook
  rw [h]
  cases htb : d.total_bytes with
  | none => simp [valueEqStr, hp]
  | some tb =>
      rw [htb] at ht
      simp only [truthyOpt] at ht
      simp [valueEqStr, hp, ht]

/-- Witness for C3: the percent string `"53.2%"` yields `53.2`. -/
theorem progress_hook_percent_fallback_witness :
    progressHook true
        { status := some (.str "downloading"), percent_str := some (.str "53.2%") } =
      .emitted
        { status := .str "downloading",
          percentage := (pyFloat (rstripPercent (pyStrip "53.2%"))).getD 0 } ∧
    (pyFloat (rstripPercent (pyStrip "53.2%"))).getD 0 = (53.2 : ℚ) := by
  constructor
  · exact progress_hook_percent_fallback _ "53.2%" rfl rfl rfl
  · have h1 : rstripPercent (pyStrip "53.2%") = "53.2" := by decide
    rw [h1]
    have h2 : pyFloat "53.2" =
        some (((1 : Int) : ℚ) *
          ((digitsToNat ['5', '3'] : ℚ) + (digitsToNat ['2'] : ℚ) / ((10 : ℚ) ^ 1))) := rfl
    rw [h2]
    have h3 : digitsToNat ['5', '3'] = 53 := by decide
    have h4 : digitsToNat ['2'] = 2 := by decide
    rw [h3, h4]
    norm_num

/-- Counterexample to C1: on the empty event dictionary the hook raises a
`KeyError` at `d['status']`, so `_progress_hook` is not total over
arbitrary input shapes. -/
theorem progress_hook_not_total_counterexample :
    progressHook true {} = HookResult.raised PyError.keyError := rfl

/-- C1 (amended): the hook completes without raising on every event that
contains a `status` key and, in the downloading branch, has an integer
byte-count pair whenever `total_bytes` is present and truthy, with a
string `_percent_str` (if present) otherwise. -/
theorem progress_hook_total_on_safe (cb : Bool) (d : Event) (h : safeEvent d = true) :
    (progressHook cb d).isRaised = false := by
  cases cb with
  | false => rfl
  | true =>
    unfold progressHook
    unfold safeEvent at h
    cases hst : d.status with
    | none => simp [hst] at h
    | some st =>
      simp only [hst] at h ⊢
      by_cases hdl : valueEqStr st "downloading" = true
      · simp only [hdl, if_true] at h ⊢
        cases htb : d.total_bytes with
        | none =>
            simp only [htb] at h ⊢
            cases hps : d.percent_str with
            | none => simp [HookResult.isRaised]
            | some v => cases v <;> simp_all [percentOk, HookResult.isRaised]
        | some tb =>
            simp only [htb] at h ⊢
            by_cases htr : truthy tb = true
            · simp only [htr, if_true] at h ⊢
              cases hdb : d.downloaded_bytes with
              | none => simp [hdb] at h
              | some db =>
                  simp only [hdb] at h ⊢
                  cases db <;> cases tb <;>
                    simp_all [pyDiv, truthy, HookResult.isRaised]
            · simp only [Bool.not_eq_true] at htr
              simp only [htr, if_false] at h ⊢
              cases hps : d.percent_str with
              | none => simp [HookResult.isRaised]
              | some v => cases v <;> simp_all [percentOk, HookResult.isRaised]
      · simp only [Bool.not_eq_true] at hdl
        simp only [hdl, if_false]
        cases hf : valueEqStr st "finished" <;> cases he : valueEqStr st "error" <;>
          simp [hf, he, HookResult.isRaised]

/-- Witness for C1 (amended) at a concrete downloading event. -/
theorem progress_hook_total_on_safe_witness :
    (progressHook true
      { status := some (Value.str "downloading"), downloaded_bytes := some (Value.int 5),
        total_bytes := some (Value.int 10) }).isRaised = false :=
  progress_hook_total_on_safe true _ (by decide)

/-- Counterexample to C4: an event reporting 3 bytes downloaded of a total
of 2 projects percentage `150.0`, outside `[0.0, 100.0]`. -/
theorem percentage_out_of_range_counterexample :
    pctOf (progressHook true
      { status := some (Value.str "downloading"), downloaded_bytes := some (Value.int 3),
        total_bytes := some (Value.int 2) }) = 150 ∧ ¬ ((150 : ℚ) ≤ 100) := by
  constructor
  · have h : pctOf (progressHook true
        { status := some (Value.str "downloading"), downloaded_bytes := some (Value.int 3),
          total_bytes := some (Value.int 2) }) = ((3 : Int) : ℚ) / ((2 : Int) : ℚ) * 100 := rfl
    rw [h]
    norm_num
  · norm_num

/-- C4 (amended): the projected percentage lies in `[0.0, 100.0]` for
every event whose byte counts satisfy
`0 <= downloaded_bytes <= total_bytes` in the byte branch and whose parsed
percent string (if it parses at all) lies in range in the fallback
branch. -/
theorem progress_percentage_in_range (cb : Bool) (d : Event)
    (h : inRangeEvent d = true) :
    0 ≤ pctOf (progressHook cb d) ∧ pctOf (progressHook cb d) ≤ 100 := by
  cases cb with
  | false => simp [progressHook, pctOf]
  | true =>
    unfold progressHook
    rw [if_neg (by simp : ¬ ((true : Bool) = false))]
    unfold inRangeEvent at h
    cases hst : d.status with
    | none => simp [pctOf]
    | some st =>
      simp only [hst] at h ⊢
      by_cases hdl : valueEqStr st "downloading" = true
      · simp only [hdl, if_true] at h ⊢
        cases htb : d.total_bytes with
        | none =>
            simp only [htb] at h ⊢
            cases hps : d.percent_str with
            | none => simp [pctOf]
            | some v =>
                cases v with
                | pyNone => simp [pctOf]
                | int n => simp [pctOf]
                | str s =>
                    simp only [percentInRange, hps] at h
                    cases hq : pyFloat (rstripPercent (pyStrip s)) with
                    | none => simp [pctOf, hq]
                    | some q =>
                        rw [hq] at h
                        simp only [Bool.and_eq_true, decide_eq_true_eq] at h
                        simp [pctOf, hq, h.1, h.2]
        | some tb =>
            simp only [htb] at h ⊢
            by_cases htr : truthy tb = true
            · simp only [htr, if_true] at h ⊢
              cases hdb : d.downloaded_bytes with
              | none => simp [pctOf]
              | some db =>
                  simp only [hdb] at h ⊢
                  cases db with
                  | pyNone => simp [pyDiv, pctOf]
                  | str s2 => simp [pyDiv, pctOf]
                  | int a =>
                      cases tb with
                      | pyNone => simp [pyDiv, pctOf]
                      | str s2 => simp [pyDiv, pctOf]
                      | int b =>
                          simp only [Bool.and_eq_true, decide_eq_true_eq] at h
                          simp only [truthy, bne_iff_ne, ne_eq] at htr
                          have hbpos : (0 : ℚ) < (b : ℚ) := by
                            exact_mod_cast (by omega : (0 : Int) < b)
                          simp only [pyDiv, if_neg htr, pctOf]
                          have h0 : (0 : ℚ) ≤ (a : ℚ) := by exact_mod_cast h.1
                          have h1 : (a : ℚ) ≤ (b : ℚ) := by exact_mod_cast h.2
                          constructor
                          · apply mul_nonneg (div_nonneg h0 hbpos.le)
                            norm_num
                          · have hle : (a : ℚ) / (b : ℚ) ≤ 1 := (div_le_one hbpos).mpr h1
                            nlinarith
            · simp only [Bool.not_eq_true] at htr
              simp [htr] at h ⊢
              cases hps : d.percent_str with
              | none => simp [pctOf]
              | some v =>
                  cases v with
                  | pyNone => simp [pctOf]
                  | int n => simp [pctOf]
                  | str s =>
                      simp only [percentInRange, hps] at h
                      cases hq : pyFloat (rstripPercent (pyStrip s)) with
                      | none => simp [pctOf, hq]
                      | some q =>
                          rw [hq] at h
                          simp only [Bool.and_eq_true, decide_eq_true_eq] at h
                          simp [pctOf, hq, h.1, h.2]
      · simp only [Bool.not_eq_true] at hdl
        simp only [hdl, if_false]
        cases hf : valueEqStr st "finished" <;> cases he : valueEqStr st "error" <;>
          simp [hf, he, pctOf]

/-- Witness for C4 (amended) at a concrete downloading event. -/
theorem progress_percentage_in_range_witness :
    0 ≤ pctOf (progressHook true
      { status := some (Value.str "downloading"), downloaded_bytes := some (Value.int 1),
        total_bytes := some (Value.int 4) }) ∧
    pctOf (progressHook true
      { status := some (Value.str "downloading"), downloaded_bytes := some (Value.int 1),
        total_bytes := some (Value.int 4) }) ≤ 100 :=
  progress_percentage_in_range true _ (by decide)

/-- C10: the byte-ratio division is attempted only when `total_bytes` is
present and truthy, so `_progress_hook` can never raise
`ZeroDivisionError`; whenever `total_bytes` is absent, zero or `None` the
hook's outcome does not depend on `downloaded_bytes` at all (it falls
through to the percent-string fallback). -/
theorem progress_hook_no_zero_division :
    (∀ cb d, progressHook cb d ≠ HookResult.raised PyError.zeroDivisionError) ∧
    (∀ cb d, truthyOpt d.total_bytes = false →
      progressHook cb d = progressHook cb { d with downloaded_bytes := Option.none }) := by
  constructor
  · intro cb d
    cases cb with
    | false => simp [progressHook]
    | true =>
      unfold progressHook
      rw [if_neg (by simp : ¬ ((true : Bool) = false))]
      cases hst : d.status with
      | none => simp
      | some st =>
        by_cases hdl : valueEqStr st "downloading" = true
        · simp only [hdl, if_true]
          cases htb : d.total_bytes with
          | none =>
              cases hps : d.percent_str with
              | none => simp
              | some v => cases v <;> simp
          | some tb =>
              by_cases htr : truthy tb = true
              · simp only [htr, if_true]
                cases hdb : d.downloaded_bytes with
                | none => simp
                | some db =>
                    cases db <;> cases tb <;> simp_all [pyDiv, truthy]
              · simp only [Bool.not_eq_true] at htr
                simp [htr]
                cases hps : d.percent_str with
                | none => simp
                | some v => cases v <;> simp
        · simp only [Bool.not_eq_true] at hdl
          simp only [hdl, if_false]
          cases hf : valueEqStr st "finished" <;> cases he : valueEqStr st "error" <;>
            simp [hf, he]
  · intro cb d h
    cases cb with
    | false => rfl
    | true =>
      unfold progressHook
      cases hst : d.status with
      | none => simp [hst]
      | some st =>
        simp only [hst]
        by_cases hdl : valueEqStr st "downloading" = true
        · simp only [hdl, if_true]
          cases htb : d.total_bytes with
          | none => simp [htb]
          | some tb =>
              rw [htb] at h
              simp only [truthyOpt] at h
              simp [htb, h]
        · simp only [Bool.not_eq_true] at hdl
          simp [hdl]

/-- Witness for C10 at a concrete event with `total_bytes` zero. -/
theorem progress_hook_no_zero_division_witness :
    progressHook true
      { status := some (Value.str "downloading"), downloaded_bytes := some (Value.int 5),
        total_bytes := some (Value.int 0), percent_str := some (Value.str "10%") } ≠
      HookResult.raised PyError.zeroDivisionError ∧
    progressHook true
      { status := some (Value.str "downloading"), downloaded_bytes := some (Value.int 5),
        total_bytes := some (Value.int 0), percent_str := some (Value.str "10%") } =
    progressHook true
      { status := some (Value.str "downloading"), downloaded_bytes := Option.none,
        total_bytes := some (Value.int 0), percent_str := some (Value.str "10%") } :=
  ⟨progress_hook_no_zero_division.1 true _,
   progress_hook_no_zero_division.2 true _ (by decide)⟩
